import Mathlib

/-!
Shallow embedding of the PSBT error-classification layer
(`src/util/psbt/error.rs`): the `PsbtHash` and `Error` enums, the
`fmt::Display` implementation, the `From<hashes::Error>` conversion and the
empty `std::error::Error` implementation, together with theorems settling the
specification's claims about them.

Byte sequences (`Vec<u8>`) are modelled as `List Nat`, the `u32` sighash code
as `Nat`, and rendered text as `List Char`.
-/

namespace Psbt

/-- Modelled from the spec: the raw key type (`util::psbt::raw::Key`) is not
under `src/`; per the data model it is "a type byte plus an opaque byte
sequence". -/
structure RawKey where
  typeValue : Nat
  key : List Nat
deriving DecidableEq

/-- Modelled from the spec: the transaction data model is an external
collaborator "exposing ... a transaction identifier usable for equality
comparison"; witness data does not feed the identifier. -/
structure Transaction where
  txid : Nat
  witness : List (List Nat)
deriving DecidableEq

/-- Modelled from the spec: the hashing collaborator's decode failure
("a hash value ... cannot be decoded into a fixed-length digest (wrong
length, bad encoding)"); `bitcoin_hashes` reports an invalid slice length
carrying the expected and received lengths. -/
inductive HashesError where
  | InvalidLength (expected : Nat) (got : Nat)
deriving DecidableEq

/-- Enum for marking psbt hash error (`PsbtHash` in `error.rs`). -/
inductive PsbtHash where
  | Ripemd
  | Sha256
  | Hash160
  | Hash256
deriving DecidableEq

/-- Ways that a Partially Signed Transaction might fail (`Error` in
`error.rs`). -/
inductive Error where
  | InvalidMagic
  | InvalidSeparator
  | InvalidKey (rkey : RawKey)
  | DuplicateKey (rkey : RawKey)
  | UnsignedTxHasScriptSigs
  | UnsignedTxHasScriptWitnesses
  | MustHaveUnsignedTx
  | NoMorePairs
  | UnexpectedUnsignedTx (expected : Transaction) (actual : Transaction)
  | NonStandardSigHashType (sht : Nat)
  | HashParseError (e : HashesError)
  | InvalidPreimageHashPair (hash_type : PsbtHash) (preimage : List Nat) (hash : List Nat)
deriving DecidableEq

/-- Decimal rendering of a natural number, as Rust's `Display` for integers. -/
def natChars (n : Nat) : List Char :=
  (Nat.repr n).data

/-- Modelled from the spec: `raw::Key`'s `Display` is not under `src/`; per
the spec the rendering is "a human-readable rendering of that key (type +
data)". -/
def keyDisplay (k : RawKey) : List Char :=
  "type: ".data ++ natChars k.typeValue ++ ", key: ".data
    ++ List.intercalate " ".data (k.key.map natChars)

/-- Modelled from the spec: the transaction identifier's rendering used by
`e.txid()` in the `Display` arm; it depends only on the identifier. -/
def txidDisplay (t : Transaction) : List Char :=
  natChars t.txid

/-- Modelled from the spec: the `Display` rendering of the hashing
collaborator's decode failure. -/
def hashesErrorDisplay : HashesError → List Char
  | .InvalidLength expected got =>
      "invalid slice length ".data ++ natChars got
        ++ " (expected ".data ++ natChars expected ++ ")".data

/-- Rust's derived `Debug` rendering of a `Vec<u8>`: the elements in decimal,
comma-space separated, between square brackets. -/
def vecDebug (l : List Nat) : List Char :=
  "[".data ++ List.intercalate ", ".data (l.map natChars) ++ "]".data

/-- Rust's derived `Debug` rendering of `PsbtHash`: the variant name. -/
def psbtHashDebug : PsbtHash → List Char
  | .Ripemd => "Ripemd".data
  | .Sha256 => "Sha256".data
  | .Hash160 => "Hash160".data
  | .Hash256 => "Hash256".data

/-- The `fmt::Display` implementation for `Error`, arm for arm from
`error.rs`; the rendered text as a character list. -/
def render : Error → List Char
  | .InvalidKey rkey => "invalid key: ".data ++ keyDisplay rkey
  | .DuplicateKey rkey => "duplicate key: ".data ++ keyDisplay rkey
  | .UnexpectedUnsignedTx e a =>
      "different unsigned transaction: expected ".data ++ txidDisplay e
        ++ ", actual ".data ++ txidDisplay a
  | .NonStandardSigHashType sht => "non-standard sighash type: ".data ++ natChars sht
  | .InvalidMagic => "invalid magic".data
  | .InvalidSeparator => "invalid separator".data
  | .UnsignedTxHasScriptSigs => "the unsigned transaction has script sigs".data
  | .UnsignedTxHasScriptWitnesses => "the unsigned transaction has script witnesses".data
  | .MustHaveUnsignedTx => "partially signed transactions must have an unsigned transaction".data
  | .NoMorePairs => "no more key-value pairs for this psbt map".data
  | .HashParseError e => "Hash Parse Error: ".data ++ hashesErrorDisplay e
  | .InvalidPreimageHashPair ht p h =>
      "Preimage ".data ++ vecDebug p ++ " does not match ".data
        ++ psbtHashDebug ht ++ " hash ".data ++ vecDebug h

/-- Index of an error's variant in declaration order; two errors are "built
from different variants" exactly when their indices differ. -/
def variantIndex : Error → Nat
  | .InvalidMagic => 0
  | .InvalidSeparator => 1
  | .InvalidKey _ => 2
  | .DuplicateKey _ => 3
  | .UnsignedTxHasScriptSigs => 4
  | .UnsignedTxHasScriptWitnesses => 5
  | .MustHaveUnsignedTx => 6
  | .NoMorePairs => 7
  | .UnexpectedUnsignedTx _ _ => 8
  | .NonStandardSigHashType _ => 9
  | .HashParseError _ => 10
  | .InvalidPreimageHashPair _ _ _ => 11

/-- Recovers the variant index from a rendered message by inspecting the
characters of its fixed lead-in, which no payload can alter. -/
def classify (cs : List Char) : Nat :=
  match cs[0]? with
  | some 'i' =>
      match cs[8]? with
      | some 'm' => 0
      | some 's' => 1
      | _ => 2
  | some 'd' =>
      match cs[1]? with
      | some 'u' => 3
      | _ => 8
  | some 't' =>
      match cs[36]? with
      | some 's' => 4
      | _ => 5
  | some 'p' => 6
  | some 'n' =>
      match cs[2]? with
      | some 'n' => 9
      | _ => 7
  | some 'H' => 10
  | some 'P' => 11
  | _ => 99

/-- Each variant's fixed lead-in survives into the rendered message, so the
variant index is recoverable from the text alone. -/
theorem classify_render (e : Error) : classify (render e) = variantIndex e := by
  cases e <;> rfl

/-- The `From<hashes::Error>` conversion from `error.rs`. -/
def from_hashes_error (e : HashesError) : Error :=
  Error.HashParseError e

/-- Pattern-matching the `HashParseError` variant to recover the wrapped
lower-level failure. -/
def unwrapHashParse : Error → Option HashesError
  | .HashParseError e => some e
  | _ => none

/-- The empty `impl error::Error for Error {}` leaves the trait's default
`source` method in force, which returns `None` for every value. -/
def errorSource (_ : Error) : Option HashesError :=
  none

/-- C1: the `Error` type is a closed set of exactly the twelve listed
variants, each carrying exactly the listed data: the offending key for
`InvalidKey` and `DuplicateKey`, the expected and actual transactions for
`UnexpectedUnsignedTx`, the raw code for `NonStandardSigHashType`, the
wrapped lower-level failure for `HashParseError`, the (hash-kind, preimage,
expected hash) triple for `InvalidPreimageHashPair`, and no data for the
rest. -/
theorem error_taxonomy_closed (e : Error) :
    e = .InvalidMagic ∨ e = .InvalidSeparator ∨
    (∃ k, e = .InvalidKey k) ∨ (∃ k, e = .DuplicateKey k) ∨
    e = .UnsignedTxHasScriptSigs ∨ e = .UnsignedTxHasScriptWitnesses ∨
    e = .MustHaveUnsignedTx ∨ e = .NoMorePairs ∨
    (∃ ex ac, e = .UnexpectedUnsignedTx ex ac) ∨
    (∃ n, e = .NonStandardSigHashType n) ∨
    (∃ he, e = .HashParseError he) ∨
    (∃ ht p h, e = .InvalidPreimageHashPair ht p h) := by
  cases e <;> simp

/-- C2 counterexample: contrary to the claim that `NoMorePairs` is kept out
of the user-facing error surface rather than being a variant of the public
error type that callers can render, `NoMorePairs` is a value of the public
`Error` type and the `Display` implementation renders it to a non-empty
diagnostic string. -/
theorem noMorePairs_public_and_rendered :
    ∃ e : Error, e = Error.NoMorePairs ∧
      render e = "no more key-value pairs for this psbt map".data ∧
      render e ≠ [] := by
  refine ⟨Error.NoMorePairs, rfl, rfl, ?_⟩
  decide

/-- C2 (amended): `NoMorePairs` is documented and used only as an internal
loop-termination sentinel, but it is an ordinary variant of the public
`Error` type, and the `Display` implementation renders it like any other
variant, as "no more key-value pairs for this psbt map"; keeping it off the
user-facing surface is a convention of the parsing code, not enforced by the
error type. -/
theorem noMorePairs_rendering :
    render Error.NoMorePairs = "no more key-value pairs for this psbt map".data :=
  rfl

/-- C3: wrapping a lower-level hash-decoding failure is lossless: the
conversion maps every `hashes::Error` value `e` to exactly
`HashParseError e`, unchanged, and pattern-matching the `HashParseError`
variant recovers the original value (wrap-then-unwrap is the identity). -/
theorem hash_error_wrap_lossless (e : HashesError) :
    from_hashes_error e = Error.HashParseError e ∧
      unwrapHashParse (from_hashes_error e) = some e :=
  ⟨rfl, rfl⟩

/-- C4: the textual rendering is a deterministic function of the error value
(equal values render byte-identically), and any two error values built from
different variants render to different strings, whatever their payloads. -/
theorem render_deterministic_and_distinct :
    (∀ e1 e2 : Error, e1 = e2 → render e1 = render e2) ∧
    (∀ e1 e2 : Error, variantIndex e1 ≠ variantIndex e2 → render e1 ≠ render e2) := by
  constructor
  · intro e1 e2 h
    rw [h]
  · intro e1 e2 hv hr
    apply hv
    rw [← classify_render e1, ← classify_render e2, hr]

/-- C4 witness: two renderings of one identical value are byte-identical, and
two concrete values from different variants render differently. -/
theorem render_deterministic_and_distinct_witness :
    render (Error.NonStandardSigHashType 4) = render (Error.NonStandardSigHashType 4) ∧
    render Error.InvalidMagic ≠ render Error.NoMorePairs :=
  ⟨render_deterministic_and_distinct.1 _ _ rfl,
   render_deterministic_and_distinct.2 Error.InvalidMagic Error.NoMorePairs (by decide)⟩

/-- The rendered message `big` contains the segment `seg` contiguously. -/
def containsSeg (big seg : List Char) : Prop :=
  ∃ pre post, big = pre ++ seg ++ post

/-- C5: every data-carrying variant's diagnostic message contains a rendering
of the data it carries: the key rendering (type + data) for `InvalidKey` and
`DuplicateKey`, both transaction identifiers for `UnexpectedUnsignedTx`, the
exact integer code for `NonStandardSigHashType`, the wrapped error's
rendering for `HashParseError`, and the preimage and expected-hash bytes for
`InvalidPreimageHashPair`. -/
theorem render_contains_carried_data :
    (∀ k, containsSeg (render (Error.InvalidKey k)) (keyDisplay k)) ∧
    (∀ k, containsSeg (render (Error.DuplicateKey k)) (keyDisplay k)) ∧
    (∀ e a, containsSeg (render (Error.UnexpectedUnsignedTx e a)) (txidDisplay e) ∧
      containsSeg (render (Error.UnexpectedUnsignedTx e a)) (txidDisplay a)) ∧
    (∀ n, containsSeg (render (Error.NonStandardSigHashType n)) (natChars n)) ∧
    (∀ he, containsSeg (render (Error.HashParseError he)) (hashesErrorDisplay he)) ∧
    (∀ ht p h, containsSeg (render (Error.InvalidPreimageHashPair ht p h)) (vecDebug p) ∧
      containsSeg (render (Error.InvalidPreimageHashPair ht p h)) (vecDebug h)) := by
  refine ⟨fun k => ⟨"invalid key: ".data, [], by simp [render]⟩,
    fun k => ⟨"duplicate key: ".data, [], by simp [render]⟩,
    fun e a => ⟨⟨"different unsigned transaction: expected ".data,
        ", actual ".data ++ txidDisplay a, by simp [render]⟩,
      ⟨"different unsigned transaction: expected ".data ++ txidDisplay e
        ++ ", actual ".data, [], by simp [render]⟩⟩,
    fun n => ⟨"non-standard sighash type: ".data, [], by simp [render]⟩,
    fun he => ⟨"Hash Parse Error: ".data, [], by simp [render]⟩,
    fun ht p h => ⟨⟨"Preimage ".data,
        " does not match ".data ++ psbtHashDebug ht ++ " hash ".data ++ vecDebug h,
        by simp [render]⟩,
      ⟨"Preimage ".data ++ vecDebug p ++ " does not match ".data
        ++ psbtHashDebug ht ++ " hash ".data, [], by simp [render]⟩⟩⟩

/-- Modelled from the spec: the hash-preimage verification checkpoint
(§4.2 rule 6) is not under `src/`; given the hashing collaborator's digest
function per hash-kind, it recomputes the digest and compares it with the
expected hash, failing with `InvalidPreimageHashPair` that carries the
original hash-kind, preimage and expected-hash bytes. -/
def validatePreimage (hashFn : PsbtHash → List Nat → List Nat)
    (ht : PsbtHash) (preimage expected : List Nat) : Except Error Unit :=
  if hashFn ht preimage = expected then
    Except.ok ()
  else
    Except.error (Error.InvalidPreimageHashPair ht preimage expected)

/-- C6: hash-preimage verification fails exactly when the recomputed digest
mismatches, and the error carries the original unmodified hash-kind,
preimage bytes and expected-hash bytes — not the recomputed digest; when the
digest matches, validation succeeds. -/
theorem preimage_validation_exact (hashFn : PsbtHash → List Nat → List Nat)
    (ht : PsbtHash) (p e : List Nat) :
    (hashFn ht p ≠ e →
      validatePreimage hashFn ht p e =
        Except.error (Error.InvalidPreimageHashPair ht p e)) ∧
    (hashFn ht p = e → validatePreimage hashFn ht p e = Except.ok ()) := by
  constructor
  · intro h
    simp [validatePreimage, h]
  · intro h
    simp [validatePreimage, h]

/-- C6 witness: with a concrete digest function, a mismatching triple fails
carrying the original data and a matching triple succeeds. -/
theorem preimage_validation_exact_witness :
    validatePreimage (fun _ l => l.map (· + 1)) PsbtHash.Sha256 [1, 2] [9] =
      Except.error (Error.InvalidPreimageHashPair PsbtHash.Sha256 [1, 2] [9]) ∧
    validatePreimage (fun _ l => l.map (· + 1)) PsbtHash.Sha256 [1, 2] [2, 3] =
      Except.ok () :=
  ⟨(preimage_validation_exact (fun _ l => l.map (· + 1)) PsbtHash.Sha256 [1, 2] [9]).1
      (by decide),
   (preimage_validation_exact (fun _ l => l.map (· + 1)) PsbtHash.Sha256 [1, 2] [2, 3]).2
      (by decide)⟩

/-- C7: the `Display` rendering of `InvalidPreimageHashPair` is exactly
"Preimage ", then the structural debug rendering of the preimage bytes, then
" does not match ", then the debug rendering of the hash-kind, then
" hash ", then the debug rendering of the expected-hash bytes. -/
theorem invalidPreimage_render_format (ht : PsbtHash) (p h : List Nat) :
    render (Error.InvalidPreimageHashPair ht p h) =
      "Preimage ".data ++ vecDebug p ++ " does not match ".data
        ++ psbtHashDebug ht ++ " hash ".data ++ vecDebug h :=
  rfl

/-- C8: the hash-kind type is a closed enumeration of exactly the four
payload-free values RIPEMD-160, SHA-256, HASH160 and HASH256, so every
`InvalidPreimageHashPair` value's hash-kind is one of these four. -/
theorem psbtHash_closed (h : PsbtHash) :
    h = PsbtHash.Ripemd ∨ h = PsbtHash.Sha256 ∨
    h = PsbtHash.Hash160 ∨ h = PsbtHash.Hash256 := by
  cases h <;> simp

/-- C9: the standard-error implementation is empty, so the source/cause
chain reports no underlying cause for any error value, including
`HashParseError`; the wrapped lower-level error is recoverable only by
pattern-matching the `HashParseError` variant. -/
theorem source_chain_empty (e : Error) :
    errorSource e = none ∧
      ∀ he : HashesError, unwrapHashParse (Error.HashParseError he) = some he :=
  ⟨rfl, fun _ => rfl⟩

/-- C10: the rendering of `UnexpectedUnsignedTx` depends on the two carried
transactions only through their transaction identifiers: equal txids on both
sides give byte-identical messages even if the transactions differ in other
data. -/
theorem unexpectedTx_render_txid_only (t1 t2 t3 t4 : Transaction)
    (h1 : t1.txid = t3.txid) (h2 : t2.txid = t4.txid) :
    render (Error.UnexpectedUnsignedTx t1 t2) =
      render (Error.UnexpectedUnsignedTx t3 t4) := by
  simp [render, txidDisplay, h1, h2]

/-- C10 witness: concrete transactions that differ in witness data but share
identifiers render identically. -/
theorem unexpectedTx_render_txid_only_witness :
    (Transaction.mk 1 [[0]]) ≠ (Transaction.mk 1 [[5, 6]]) ∧
    (Transaction.mk 2 []) ≠ (Transaction.mk 2 [[7]]) ∧
    render (Error.UnexpectedUnsignedTx (Transaction.mk 1 [[0]]) (Transaction.mk 2 [])) =
      render (Error.UnexpectedUnsignedTx (Transaction.mk 1 [[5, 6]]) (Transaction.mk 2 [[7]])) :=
  ⟨by decide, by decide,
   unexpectedTx_render_txid_only (Transaction.mk 1 [[0]]) (Transaction.mk 2 [])
     (Transaction.mk 1 [[5, 6]]) (Transaction.mk 2 [[7]]) rfl rfl⟩

end Psbt
